import Mathlib

/-!
Verification of the FinanceBot conversation router (src/bot_final_corrigido.py).

The handlers are embedded as pure functions.  Network effects are passed in
explicitly: each external HTTP interaction (deals API, Shopee scrape, OpenAI
completion) is an `HttpResult` oracle argument describing the outcome of that
one call, and the wall clock (`datetime.now`) is a `now : Nat` argument.
Python floats are modelled exactly as rationals plus the special values
`inf`/`nan`; Python's `float()` string parser is reproduced for ASCII inputs
(sign, underscore-separated digit groups, decimal point, exponent, inf/nan).
-/

namespace FinanceBot

/-- Outcome of one HTTP interaction: a parsed successful response, or any
`requests.exceptions.RequestException` (timeout, connection error,
non-success status raised by `raise_for_status`). -/
inductive HttpResult (α : Type) where
  | ok (data : α)
  | err
deriving DecidableEq

/-- Python `str.strip()` on a character list: whitespace removed at both ends. -/
def pyStripList (l : List Char) : List Char :=
  ((l.dropWhile Char.isWhitespace).reverse.dropWhile Char.isWhitespace).reverse

/-- Python `str.strip()`. -/
def pyStrip (s : String) : String := String.mk (pyStripList s.data)

/-- Python `str.split(sep)` for a single-character separator: every occurrence
splits, empty fields are kept, the empty string yields `[[]]`. -/
def splitOnChar (sep : Char) : List Char → List (List Char)
  | [] => [[]]
  | c :: rest =>
    let r := splitOnChar sep rest
    if c = sep then [] :: r else (c :: r.headI) :: r.tail

/-- A Python float value: a rational, an infinity, or nan. -/
inductive PyFloat where
  | num (q : ℚ)
  | inf (neg : Bool)
  | nan
deriving DecidableEq

/-- Whether a Python float value is negative (nan is not). -/
def PyFloat.isNeg : PyFloat → Bool
  | .num q => decide (q < 0)
  | .inf b => b
  | .nan => false

/-- Python float addition (`nan` absorbs, opposite infinities give `nan`). -/
def pyAdd : PyFloat → PyFloat → PyFloat
  | .nan, _ => .nan
  | _, .nan => .nan
  | .inf b, .inf c => if b = c then .inf b else .nan
  | .inf b, .num _ => .inf b
  | .num _, .inf c => .inf c
  | .num a, .num b => .num (a + b)

/-- Python `sum` over float values (initial accumulator `0`). -/
def pySum (l : List PyFloat) : PyFloat := l.foldl pyAdd (.num 0)

/-- Consume the rest of a digit group in which underscores may stand between
two digits; returns the accumulated value and the number of digits read. -/
def digitsCore : Nat → Nat → List Char → Option (Nat × Nat)
  | acc, cnt, [] => some (acc, cnt)
  | acc, cnt, '_' :: c :: rest =>
      if c.isDigit then digitsCore (10 * acc + (c.toNat - 48)) (cnt + 1) rest else none
  | _, _, ['_'] => none
  | acc, cnt, c :: rest =>
      if c.isDigit then digitsCore (10 * acc + (c.toNat - 48)) (cnt + 1) rest else none

/-- A nonempty digit group: starts with a digit, underscores only between
digits.  Returns the value and the digit count. -/
def digitGroup : List Char → Option (Nat × Nat)
  | [] => none
  | c :: rest => if c.isDigit then digitsCore (c.toNat - 48) 1 rest else none

/-- A possibly-empty digit group (the integer or fractional part around a
decimal point may each be empty, but not both). -/
def digitGroupOpt (l : List Char) : Option (Nat × Nat) :=
  match l with
  | [] => some (0, 0)
  | _ => digitGroup l

/-- Mantissa of a Python float literal: digits with at most one decimal point,
at least one digit overall.  Returns the combined digit value and how many of
its digits lie after the decimal point. -/
def pyParseMantissa (m : List Char) : Option (Nat × Nat) :=
  match splitOnChar '.' m with
  | [ip] => (digitGroup ip).map (fun p => (p.1, 0))
  | [ip, fp] =>
    match digitGroupOpt ip, digitGroupOpt fp with
    | some pi, some pf =>
      if pi.2 + pf.2 = 0 then none
      else some (pi.1 * 10 ^ pf.2 + pf.1, pf.2)
    | _, _ => none
  | _ => none

/-- Exponent part after `e`: optional sign, then a digit group. -/
def pyParseExp (l : List Char) : Option ℤ :=
  match l with
  | '+' :: rest => (digitGroup rest).map (fun p => (p.1 : ℤ))
  | '-' :: rest => (digitGroup rest).map (fun p => -(p.1 : ℤ))
  | _ => (digitGroup l).map (fun p => (p.1 : ℤ))

/-- The rational `m * 10 ^ (e - fracDigits)`, built with integer arithmetic. -/
def pyValue (m : Nat) (fracDigits : Nat) (e : ℤ) : ℚ :=
  let k : ℤ := e - fracDigits
  if 0 ≤ k then ((m * 10 ^ k.toNat : Nat) : ℚ)
  else mkRat m (10 ^ (-k).toNat)

/-- Unsigned numeric literal: mantissa with an optional `e` exponent. -/
def pyParseNumeric (l : List Char) : Option ℚ :=
  match splitOnChar 'e' l with
  | [m] => (pyParseMantissa m).map (fun p => pyValue p.1 p.2 0)
  | [m, ex] =>
    match pyParseMantissa m, pyParseExp ex with
    | some p, some ev => some (pyValue p.1 p.2 ev)
    | _, _ => none
  | _ => none

/-- Body of a Python float literal after the optional sign (already
lowercased): `inf`, `infinity`, `nan`, or a numeric literal. -/
def pyParseSigned (l : List Char) (neg : Bool) : Option PyFloat :=
  if l = "inf".data ∨ l = "infinity".data then some (PyFloat.inf neg)
  else if l = "nan".data then some PyFloat.nan
  else (pyParseNumeric l).map (fun q => PyFloat.num (if neg then -q else q))

/-- Python `float(s)` on ASCII input: strip whitespace, optional sign, then a
case-insensitive body (`inf`/`infinity`/`nan` or digits, decimal point and
exponent, with underscores allowed between digits). -/
def pythonFloat (s : String) : Option PyFloat :=
  match pyStripList s.data with
  | '+' :: rest => pyParseSigned (rest.map Char.toLower) false
  | '-' :: rest => pyParseSigned (rest.map Char.toLower) true
  | l => pyParseSigned (l.map Char.toLower) false

/-- `⌊q * scale + 1/2⌋` via integer arithmetic: decimal rounding of the exact
rational (CPython rounds on the binary double; on the exact values the claims
exercise the two agree). -/
def roundScaled (q : ℚ) (scale : Nat) : ℤ :=
  Int.fdiv (2 * scale * q.num + q.den) (2 * q.den)

/-- Python `f"{x:.2f}"` on a float value. -/
def format2f (x : PyFloat) : String :=
  match x with
  | PyFloat.nan => "nan"
  | PyFloat.inf b => if b then "-inf" else "inf"
  | PyFloat.num q =>
    let n : ℤ := roundScaled q 100
    let sign := if n < 0 then "-" else ""
    let a := n.natAbs
    let frac := a % 100
    sign ++ toString (a / 100) ++ "." ++ (if frac < 10 then "0" else "") ++ toString frac

/-- Python `f"{x:.1f}"` on a rational. -/
def format1f (q : ℚ) : String :=
  let n : ℤ := roundScaled q 10
  let sign := if n < 0 then "-" else ""
  let a := n.natAbs
  sign ++ toString (a / 10) ++ "." ++ toString (a % 10)

/-- One row of the `purchases` table.  `id` is the store-assigned key. -/
structure Purchase where
  id : Nat
  user_id : Nat
  product : String
  value : PyFloat
  category : String
  date : Nat
deriving DecidableEq

/-- Python `needle in hay` on strings (contiguous subsequence test). -/
def hasSubSeq (needle : List Char) : List Char → Bool
  | [] => needle.isEmpty
  | c :: rest => needle.isPrefixOf (c :: rest) || hasSubSeq needle rest

/-- Search URL built by `buscar_shopee_scraping`: spaces become `%20`. -/
def shopee_url (termo : String) : String :=
  "https://shopee.com.br/search?keyword=" ++
    String.mk ((termo.data.map (fun c => if c = ' ' then "%20".data else [c])).flatten)

/-- Relative links are prefixed with the site domain. -/
def full_link (link : String) : String :=
  if link.startsWith "/" then "https://shopee.com.br" ++ link else link

/-- Genuine result list for a Shopee search. -/
def shopee_success_msg (termo : String) (links : List String) : String :=
  "🛍️ **Resultados da Shopee para '" ++ termo ++ "'** 🛍️\n\n" ++
    String.join (links.enum.map
      (fun p => "🔗 [Produto " ++ toString (p.1 + 1) ++ "](" ++ full_link p.2 ++ ")\n"))

/-- Fallback notice when no product link was extracted; it embeds the
constructed search URL twice as placeholder links. -/
def shopee_fallback_msg (termo : String) : String :=
  "❌ O scraping da Shopee falhou ou não encontrou resultados para '" ++ termo ++ "'.\n" ++
  "Isso é comum, pois a Shopee usa carregamento dinâmico (JavaScript).\n\n" ++
  "**Links Simulados (para demonstrar a funcionalidade):**\n" ++
  "🔗 [Produto 1 - " ++ termo ++ "](" ++ shopee_url termo ++ ")\n" ++
  "🔗 [Produto 2 - " ++ termo ++ "](" ++ shopee_url termo ++ ")\n"

/-- Transport-failure message of the Shopee search. -/
def shopee_error_msg : String := "❌ Ocorreu um erro de conexão ao tentar buscar na Shopee."

/-- `[a['href'] for a in soup.find_all('a', href=True) if '/product/' in a['href']][:3]`,
with the response markup abstracted to its list of anchor targets. -/
def extract_product_links (anchors : List String) : List String :=
  (anchors.filter (fun a => hasSubSeq "/product/".data a.data)).take 3

/-- `buscar_shopee_scraping`, with the HTTP layer abstracted to the list of
anchor `href`s found in the response markup. -/
def buscar_shopee_scraping (termo : String) (http : HttpResult (List String)) : String :=
  match http with
  | HttpResult.err => shopee_error_msg
  | HttpResult.ok anchors =>
    let product_links := extract_product_links anchors
    if product_links = [] then shopee_fallback_msg termo
    else shopee_success_msg termo product_links

/-- One deal object of the deals-API JSON; absent fields are `none` and the
formatter substitutes the source's `.get` defaults. -/
structure Deal where
  title : Option String
  price : Option String
  discount_percentage : Option ℚ
  provider : Option String
  url : Option String
deriving DecidableEq

/-- `item.get("deal", {})` default. -/
def empty_deal : Deal := ⟨none, none, none, none, none⟩

/-- The `limit` query parameter sent to the deals API. -/
def discount_request_limit : Nat := 5

/-- The formatted block appended for one item of the `deals` list. -/
def deal_entry (item : Option Deal) : String :=
  let deal := item.getD empty_deal
  "🏷️ **" ++ deal.title.getD "Sem Título" ++ "**\n" ++
  "💰 Preço: $" ++ deal.price.getD "N/A" ++ " | Desconto: " ++
    format1f (deal.discount_percentage.getD 0) ++ "%\n" ++
  "🏪 Loja: " ++ deal.provider.getD "Loja Desconhecida" ++ "\n" ++
  "[🔗 Ver Oferta](" ++ deal.url.getD "#" ++ ")\n\n"

/-- Header of the deals message. -/
def deals_header : String := "✨ **Melhores Deals do Dia** ✨\n\n"

/-- Empty-result message of the deals lookup, explicitly not an error. -/
def no_deals_msg : String := "Nenhuma promoção incrível encontrada no momento. Tente mais tarde!"

/-- Transport/HTTP failure message of the deals lookup. -/
def deals_error_msg : String := "❌ Ocorreu um erro ao buscar as promoções. Verifique a chave da API."

/-- `buscar_discount_api_real`, with the HTTP layer abstracted to the parsed
JSON: an optional `deals` list whose items each optionally carry a `deal`. -/
def buscar_discount_api_real (http : HttpResult (Option (List (Option Deal)))) : String :=
  match http with
  | HttpResult.err => deals_error_msg
  | HttpResult.ok data =>
    let deals := data.getD []
    if deals = [] then no_deals_msg
    else deals_header ++ String.join (deals.map deal_entry)

/-- Unavailability message when the OpenAI key is not configured. -/
def ai_unavailable_msg : String :=
  "❌ A funcionalidade de IA está desativada (chave da OpenAI não configurada)."

/-- Failure message of the completion call. -/
def ai_error_msg : String :=
  "❌ Ocorreu um erro ao consultar a Inteligência Artificial. Verifique sua chave ou limites de uso."

/-- Progress notice sent before the completion call. -/
def ai_progress_msg : String := "🧠 Analisando sua pergunta com a IA..."

/-- Calendar rendering `strftime('%d/%m/%Y')` of the stored timestamp:
the timestamp is an abstract tick, so its rendering is kept abstract as its
decimal form (no claim depends on the rendered text). -/
def date_dmy (d : Nat) : String := toString d

/-- Calendar rendering `strftime('%d/%m')`, abstracted like `date_dmy`. -/
def date_dm (d : Nat) : String := toString d

/-- The spending-history context block built for the completion prompt. -/
def ai_context_data (user_id : Nat) (db : List Purchase) : String :=
  let purchases := db.filter (fun p => p.user_id == user_id)
  if purchases = [] then "O usuário ainda não registrou nenhuma compra."
  else
    let history := String.intercalate "\n" (purchases.map (fun p =>
      "- " ++ p.product ++ " (R$ " ++ format2f p.value ++ ") na categoria " ++
        p.category ++ " em " ++ date_dmy p.date))
    let total_spent := pySum (purchases.map Purchase.value)
    "O usuário já gastou um total de R$ " ++ format2f total_spent ++ " em " ++
      toString purchases.length ++ " compras. " ++
      "Aqui está o histórico detalhado:\n" ++ history

/-- Result of `analisar_com_ia`: the reply text, plus whether the completion
endpoint was contacted at all. -/
structure AiResult where
  reply : String
  api_called : Bool
deriving DecidableEq

/-- `analisar_com_ia`, with the completion call abstracted to an oracle from
the composed user prompt to the outcome of that one request. -/
def analisar_com_ia (openai_configured : Bool) (user_id : Nat) (question : String)
    (db : List Purchase) (completion : String → HttpResult String) : AiResult :=
  if openai_configured = false then ⟨ai_unavailable_msg, false⟩
  else
    let user_prompt := "Contexto de gastos do usuário:\n" ++ ai_context_data user_id db ++
      "\n\nPergunta do usuário: " ++ question
    match completion user_prompt with
    | HttpResult.ok txt => ⟨txt, true⟩
    | HttpResult.err => ⟨ai_error_msg, true⟩

/-- Confirmation sent after a purchase is persisted. -/
def purchase_success_msg (produto : String) (valor : PyFloat) (categoria : String) : String :=
  "✅ Compra registrada com sucesso no banco de dados!\n" ++
  "Produto: " ++ produto ++ "\n" ++
  "Valor: R$ " ++ format2f valor ++ "\n" ++
  "Categoria: " ++ categoria

/-- Corrective message for a non-numeric value field. -/
def value_error_msg : String :=
  "❌ Formato de valor inválido. Use apenas números (ex: 5000 ou 5000.50)."

/-- Corrective message for a field count other than 3. -/
def format_error_msg : String :=
  "❌ Formato incorreto. Use: `Produto - Valor - Categoria`\nExemplo: `iPhone 15 - 5000 - Eletrônicos`"

/-- Fallback when no state is pending and the assistant is not configured. -/
def unrecognized_msg : String :=
  "Comando não reconhecido. Use /start para ver o menu principal ou /help para o guia de uso."

/-- `valor_str.replace(',', '.')`. -/
def comma_to_period (s : String) : String :=
  String.mk (s.data.map (fun c => if c = ',' then '.' else c))

/-- `[p.strip() for p in text.split('-')]`. -/
def purchase_parts (text : String) : List String :=
  (splitOnChar '-' text.data).map (fun p => String.mk (pyStripList p))

/-- Which arm of the `handle_message` dispatch ran. -/
inductive MsgBranch where
  | shopeeTerm
  | purchaseEntry
  | aiPrompt
  | fallback
deriving DecidableEq

/-- Result of one `handle_message` call: the user's pending state and the
purchase table afterwards, and the outbound messages in order. -/
structure MsgResult where
  state' : Option String
  db' : List Purchase
  replies : List String
  branch : MsgBranch
deriving DecidableEq

/-- `handle_message`: free-text dispatch over the pending state.  The two
network interactions it can trigger are passed as oracles, and `now` is the
creation timestamp a new purchase row would receive. -/
def handle_message (openai_configured : Bool) (shopee_http : HttpResult (List String))
    (ai_completion : String → HttpResult String) (now : Nat) (user_id : Nat)
    (raw_text : String) (state : Option String) (db : List Purchase) : MsgResult :=
  let text := pyStrip raw_text
  if state = some "waiting_shopee_term" then
    ⟨none, db, [buscar_shopee_scraping text shopee_http], MsgBranch.shopeeTerm⟩
  else if state = some "waiting_purchase" then
    let parts := purchase_parts text
    if parts.length = 3 then
      let produto := parts.getD 0 ""
      let valor_str := parts.getD 1 ""
      let categoria := parts.getD 2 ""
      match pythonFloat (comma_to_period valor_str) with
      | some valor =>
        ⟨none, db ++ [⟨db.length, user_id, produto, valor, categoria, now⟩],
          [purchase_success_msg produto valor categoria], MsgBranch.purchaseEntry⟩
      | none => ⟨none, db, [value_error_msg], MsgBranch.purchaseEntry⟩
    else ⟨none, db, [format_error_msg], MsgBranch.purchaseEntry⟩
  else if state = some "waiting_ai_prompt" then
    ⟨none, db,
      [ai_progress_msg, (analisar_com_ia openai_configured user_id text db ai_completion).reply],
      MsgBranch.aiPrompt⟩
  else if openai_configured then
    ⟨state, db,
      [ai_progress_msg, (analisar_com_ia openai_configured user_id text db ai_completion).reply],
      MsgBranch.fallback⟩
  else
    ⟨state, db, [unrecognized_msg], MsgBranch.fallback⟩

/-- Welcome text of `/start`. -/
def welcome_msg : String :=
  "Olá! Eu sou o FinanceBot. Escolha uma opção abaixo para começar a economizar e rastrear seus gastos:"

/-- The callback keys of the main-menu keyboard built by `start`. -/
def main_menu_keys : List String :=
  ["deals", "shopee_search", "add_purchase", "my_expenses", "ask_ai", "help"]

/-- Guide text of `/help`. -/
def help_text : String :=
  "❓ **Guia de Uso do FinanceBot** ❓\n\n" ++
  "**💰 Melhores Deals:** Busca as melhores promoções internacionais (em USD).\n" ++
  "**🛍️ Buscar na Shopee:** Permite buscar produtos na Shopee. Você será solicitado a digitar o termo de busca.\n" ++
  "**💳 Adicionar Compra:** Registra uma compra. Use o formato:\n" ++
  "   `Produto - Valor - Categoria` (Ex: `iPhone 15 - 5000 - Eletrônicos`)\n" ++
  "**📊 Meus Gastos:** Mostra o resumo das suas compras registradas.\n" ++
  "**🧠 Perguntar à IA:** Use a IA para analisar seus gastos e tirar dúvidas financeiras.\n"

/-- Result of a command or button handler: pending state and purchase table
afterwards, and the outbound messages in order. -/
structure CbResult where
  state' : Option String
  db' : List Purchase
  replies : List String
deriving DecidableEq

/-- `start`: sends the fixed menu; it neither reads nor writes the pending
state or the store, so both pass through unchanged. -/
def start (state : Option String) (db : List Purchase) : CbResult :=
  ⟨state, db, [welcome_msg]⟩

/-- `help_command`: sends the fixed guide text; state and store untouched. -/
def help_command (state : Option String) (db : List Purchase) : CbResult :=
  ⟨state, db, [help_text]⟩

/-- `ORDER BY date DESC` on purchases. -/
def date_desc (a b : Purchase) : Prop := b.date ≤ a.date

instance : DecidableRel date_desc := fun a b => Nat.decLe b.date a.date

instance : IsTotal Purchase date_desc := ⟨fun a b => Nat.le_total b.date a.date⟩

instance : IsTrans Purchase date_desc := ⟨fun _ _ _ h₁ h₂ => le_trans h₂ h₁⟩

/-- The `my_expenses` query: the user's rows ordered by date descending. -/
def sort_recent_first (l : List Purchase) : List Purchase := List.insertionSort date_desc l

/-- Message when the user has no purchases yet. -/
def no_purchases_msg : String := "📊 Você ainda não registrou nenhuma compra no banco de dados."

/-- One line of the recent-purchase listing. -/
def expense_line (p : Purchase) : String :=
  " - " ++ p.product ++ " (R$ " ++ format2f p.value ++ ") - " ++ p.category ++
    " (" ++ date_dm p.date ++ ")\n"

/-- The spending-summary message: total, count, and the listed entries. -/
def expenses_msg (total : PyFloat) (n : Nat) (recent : List Purchase) : String :=
  "📊 **Resumo dos Seus Gastos (Persistente)** 📊\n\n" ++
  "Total Gasto: **R$ " ++ format2f total ++ "**\n" ++
  "Número de Compras: **" ++ toString n ++ "**\n\n" ++
  "**Últimas Compras Registradas:**\n" ++
  String.join (recent.map expense_line)

/-- Prompt sent when the user selects the Shopee search. -/
def shopee_prompt_msg : String :=
  "🛍️ Por favor, digite o termo que você deseja buscar na Shopee (Ex: 'Xiaomi 14')."

/-- Prompt sent when the user selects "add purchase". -/
def add_purchase_prompt_msg : String :=
  "💳 Para registrar uma compra, use o formato:\n`Produto - Valor - Categoria`\nExemplo: `iPhone 15 - 5000 - Eletrônicos`"

/-- Prompt sent when the user selects "ask AI" and the key is configured. -/
def ask_ai_prompt_msg : String :=
  "🧠 Qual sua pergunta? Você pode pedir uma análise dos seus gastos ou uma dica financeira geral.\nEx: 'Em que categoria eu mais gastei?' ou 'Devo comprar um novo celular?'"

/-- `handle_callback`: button-selection dispatch.  The deals HTTP interaction
is passed as an oracle; the last arm covers callback data the source never
produces (its keyboards only emit `main_menu_keys`). -/
def handle_callback (openai_configured : Bool)
    (deals_http : HttpResult (Option (List (Option Deal))))
    (user_id : Nat) (data : String) (state : Option String) (db : List Purchase) : CbResult :=
  if data = "deals" then ⟨state, db, [buscar_discount_api_real deals_http]⟩
  else if data = "shopee_search" then ⟨some "waiting_shopee_term", db, [shopee_prompt_msg]⟩
  else if data = "add_purchase" then ⟨some "waiting_purchase", db, [add_purchase_prompt_msg]⟩
  else if data = "ask_ai" then
    if openai_configured = false then ⟨state, db, [ai_unavailable_msg]⟩
    else ⟨some "waiting_ai_prompt", db, [ask_ai_prompt_msg]⟩
  else if data = "my_expenses" then
    let purchases := sort_recent_first (db.filter (fun p => p.user_id == user_id))
    if purchases = [] then ⟨state, db, [no_purchases_msg]⟩
    else ⟨state, db,
      [expenses_msg (pySum (purchases.map Purchase.value)) purchases.length (purchases.take 5)]⟩
  else if data = "help" then help_command state db
  else ⟨state, db, []⟩

/-! ### Helper lemmas -/

theorem string_data_inj {s t : String} (h : s.data = t.data) : s = t := by
  cases s; cases t; cases h; rfl

theorem splitOnChar_ne_nil (sep : Char) (l : List Char) : splitOnChar sep l ≠ [] := by
  cases l with
  | nil => simp [splitOnChar]
  | cons c rest =>
    by_cases hc : c = sep
    · simp [splitOnChar, hc]
    · simp [splitOnChar, hc]

theorem splitOnChar_length (sep : Char) (l : List Char) :
    (splitOnChar sep l).length = l.count sep + 1 := by
  induction l with
  | nil => rfl
  | cons c rest ih =>
    obtain ⟨g, gs, hr⟩ := List.exists_cons_of_ne_nil (splitOnChar_ne_nil sep rest)
    rw [hr] at ih
    simp only [List.length_cons] at ih
    by_cases hc : c = sep
    · simp [splitOnChar, hc, hr, List.count_cons]
      omega
    · simp [splitOnChar, hc, hr, List.count_cons]
      omega

theorem mem_splitOnChar {sep : Char} {l part : List Char}
    (h : part ∈ splitOnChar sep l) : sep ∉ part := by
  induction l generalizing part with
  | nil =>
    simp [splitOnChar] at h
    simp [h]
  | cons c rest ih =>
    obtain ⟨g, gs, hr⟩ := List.exists_cons_of_ne_nil (splitOnChar_ne_nil sep rest)
    by_cases hc : c = sep
    · rw [splitOnChar] at h
      simp only [if_pos hc] at h
      rcases List.mem_cons.mp h with h' | h'
      · simp [h']
      · exact ih h'
    · rw [splitOnChar] at h
      simp only [if_neg hc, hr] at h
      rcases List.mem_cons.mp h with h' | h'
      · subst h'
        intro hmem
        rcases List.mem_cons.mp hmem with h'' | h''
        · exact hc h''.symm
        · have hg : g ∈ splitOnChar sep rest := by rw [hr]; exact List.mem_cons_self g gs
          exact ih hg h''
      · have hgs : part ∈ splitOnChar sep rest := by
          rw [hr]; exact List.mem_cons_of_mem g h'
        exact ih hgs

theorem pyStripList_subset {a : Char} {l : List Char} (h : a ∈ pyStripList l) : a ∈ l := by
  unfold pyStripList at h
  rw [List.mem_reverse] at h
  have h₁ := (List.dropWhile_sublist (l := (l.dropWhile Char.isWhitespace).reverse)
    (p := Char.isWhitespace)).subset h
  rw [List.mem_reverse] at h₁
  exact (List.dropWhile_sublist (l := l) (p := Char.isWhitespace)).subset h₁

theorem pyValue_nonneg (m fracDigits : Nat) (e : ℤ) : 0 ≤ pyValue m fracDigits e := by
  by_cases hk : 0 ≤ e - (fracDigits : ℤ)
  · simp only [pyValue, if_pos hk]
    exact_mod_cast Nat.cast_nonneg _
  · simp only [pyValue, if_neg hk]
    exact Rat.mkRat_nonneg (Int.ofNat_nonneg m) _

theorem pyParseNumeric_nonneg {l : List Char} {q : ℚ}
    (h : pyParseNumeric l = some q) : 0 ≤ q := by
  unfold pyParseNumeric at h
  rcases hs : splitOnChar 'e' l with _ | ⟨m, tl⟩ <;> rw [hs] at h
  · simp at h
  · rcases tl with _ | ⟨ex, tl2⟩
    · simp only [] at h
      obtain ⟨p, _, hpv⟩ := Option.map_eq_some'.mp h
      rw [← hpv]
      exact pyValue_nonneg _ _ _
    · rcases tl2 with _ | ⟨x, tl3⟩
      · simp only [] at h
        rcases hm : pyParseMantissa m with _ | p <;> rw [hm] at h
        · simp at h
        · rcases he : pyParseExp ex with _ | ev <;> rw [he] at h
          · simp at h
          · obtain rfl : _ = q := Option.some.inj h
            exact pyValue_nonneg _ _ _
      · simp at h

theorem pyParseSigned_false_not_neg {l : List Char} {f : PyFloat}
    (h : pyParseSigned l false = some f) : f.isNeg = false := by
  unfold pyParseSigned at h
  split at h
  · obtain rfl : _ = f := Option.some.inj h
    rfl
  · split at h
    · obtain rfl : _ = f := Option.some.inj h
      rfl
    · obtain ⟨q, hq, hf⟩ := Option.map_eq_some'.mp h
      rw [← hf]
      have h0 : 0 ≤ q := pyParseNumeric_nonneg hq
      simp [PyFloat.isNeg, not_lt.mpr h0]

theorem pythonFloat_not_neg {s : String} {f : PyFloat}
    (hm : '-' ∉ s.data) (h : pythonFloat s = some f) : f.isNeg = false := by
  unfold pythonFloat at h
  split at h
  · exact pyParseSigned_false_not_neg h
  · rename_i rest heq
    exfalso
    apply hm
    apply pyStripList_subset (l := s.data)
    rw [heq]
    exact List.mem_cons_self _ _
  · exact pyParseSigned_false_not_neg h

theorem purchase_parts_length (t : String) :
    (purchase_parts t).length = t.data.count '-' + 1 := by
  unfold purchase_parts
  rw [List.length_map, splitOnChar_length]

theorem purchase_parts_no_hyphen (t : String) (i : Nat) :
    '-' ∉ ((purchase_parts t).getD i "").data := by
  by_cases hi : i < (purchase_parts t).length
  · rw [List.getD_eq_getElem _ _ hi]
    intro hmem
    have hi2 : i < (splitOnChar '-' t.data).length := by
      have := purchase_parts_length t
      rw [splitOnChar_length]
      omega
    have hget : (purchase_parts t)[i] =
        String.mk (pyStripList (splitOnChar '-' t.data)[i]) := by
      unfold purchase_parts
      exact List.getElem_map _
    rw [hget] at hmem
    have hsub : '-' ∈ (splitOnChar '-' t.data)[i] := pyStripList_subset hmem
    exact mem_splitOnChar (List.getElem_mem hi2) hsub
  · rw [List.getD_eq_default]
    · simp
    · omega

theorem ne_of_data_head {s t : String} (h : s.data.head? ≠ t.data.head?) : s ≠ t :=
  fun he => h (by rw [he])

/-! ### Claims -/

/-- C1: while the pending state is `waiting_purchase`, a text that splits on
`-` into exactly three trimmed fields whose value field parses as a Python
float (after comma-to-period normalization) persists exactly one purchase
carrying the three parsed fields, clears the state to none, and replies with
the confirmation echoing the three values (value via the 2-decimal format). -/
theorem claim_c1_purchase_persisted (cfg : Bool) (sh : HttpResult (List String))
    (ai : String → HttpResult String) (now uid : Nat) (raw : String) (db : List Purchase)
    (pf : PyFloat)
    (h3 : (purchase_parts (pyStrip raw)).length = 3)
    (hv : pythonFloat (comma_to_period ((purchase_parts (pyStrip raw)).getD 1 "")) = some pf) :
    handle_message cfg sh ai now uid raw (some "waiting_purchase") db =
      ⟨none,
        db ++ [⟨db.length, uid, (purchase_parts (pyStrip raw)).getD 0 "", pf,
          (purchase_parts (pyStrip raw)).getD 2 "", now⟩],
        [purchase_success_msg ((purchase_parts (pyStrip raw)).getD 0 "") pf
          ((purchase_parts (pyStrip raw)).getD 2 "")],
        MsgBranch.purchaseEntry⟩ := by
  simp only [handle_message]
  rw [if_neg (by decide : ¬((some "waiting_purchase" : Option String) = some "waiting_shopee_term"))]
  rw [if_true]
  rw [if_pos h3, hv]

theorem claim_c1_witness :
    (purchase_parts (pyStrip "iPhone 15 - 5000 - Eletrônicos")).length = 3 ∧
    pythonFloat (comma_to_period
      ((purchase_parts (pyStrip "iPhone 15 - 5000 - Eletrônicos")).getD 1 "")) =
      some (PyFloat.num 5000) ∧
    handle_message true (HttpResult.ok []) (fun _ => HttpResult.err) 42 7
      "iPhone 15 - 5000 - Eletrônicos" (some "waiting_purchase") [] =
      ⟨none, [⟨0, 7, "iPhone 15", PyFloat.num 5000, "Eletrônicos", 42⟩],
        [purchase_success_msg "iPhone 15" (PyFloat.num 5000) "Eletrônicos"],
        MsgBranch.purchaseEntry⟩ :=
  ⟨by decide, by decide,
    claim_c1_purchase_persisted true (HttpResult.ok []) (fun _ => HttpResult.err) 42 7
      "iPhone 15 - 5000 - Eletrônicos" [] (PyFloat.num 5000) (by decide) (by decide)⟩

/-- C2: while the pending state is `waiting_purchase`, a field count other
than 3 yields the format-error message, and 3 fields with an unparsable value
yield the value-error message; in both cases no purchase is persisted
(`db` unchanged) and the pending state ends at none. -/
theorem claim_c2_invalid_rejected (cfg : Bool) (sh : HttpResult (List String))
    (ai : String → HttpResult String) (now uid : Nat) (raw : String) (db : List Purchase) :
    ((purchase_parts (pyStrip raw)).length ≠ 3 →
      handle_message cfg sh ai now uid raw (some "waiting_purchase") db =
        ⟨none, db, [format_error_msg], MsgBranch.purchaseEntry⟩) ∧
    ((purchase_parts (pyStrip raw)).length = 3 →
      pythonFloat (comma_to_period ((purchase_parts (pyStrip raw)).getD 1 "")) = none →
      handle_message cfg sh ai now uid raw (some "waiting_purchase") db =
        ⟨none, db, [value_error_msg], MsgBranch.purchaseEntry⟩) := by
  constructor
  · intro h3
    simp only [handle_message]
    rw [if_neg (by decide : ¬((some "waiting_purchase" : Option String) = some "waiting_shopee_term"))]
    rw [if_true]
    rw [if_neg h3]
  · intro h3 hv
    simp only [handle_message]
    rw [if_neg (by decide : ¬((some "waiting_purchase" : Option String) = some "waiting_shopee_term"))]
    rw [if_true]
    rw [if_pos h3, hv]

theorem claim_c2_witness :
    ((purchase_parts (pyStrip "iPhone 15 - 5000")).length ≠ 3 ∧
      handle_message false (HttpResult.ok []) (fun _ => HttpResult.err) 0 1
        "iPhone 15 - 5000" (some "waiting_purchase") [] =
        ⟨none, [], [format_error_msg], MsgBranch.purchaseEntry⟩) ∧
    ((purchase_parts (pyStrip "iPhone 15 - cinco mil - Eletrônicos")).length = 3 ∧
      pythonFloat (comma_to_period
        ((purchase_parts (pyStrip "iPhone 15 - cinco mil - Eletrônicos")).getD 1 "")) = none ∧
      handle_message false (HttpResult.ok []) (fun _ => HttpResult.err) 0 1
        "iPhone 15 - cinco mil - Eletrônicos" (some "waiting_purchase") [] =
        ⟨none, [], [value_error_msg], MsgBranch.purchaseEntry⟩) :=
  ⟨⟨by decide,
      (claim_c2_invalid_rejected false (HttpResult.ok []) (fun _ => HttpResult.err) 0 1
        "iPhone 15 - 5000" []).1 (by decide)⟩,
    ⟨by decide, by decide,
      (claim_c2_invalid_rejected false (HttpResult.ok []) (fun _ => HttpResult.err) 0 1
        "iPhone 15 - cinco mil - Eletrônicos" []).2 (by decide) (by decide)⟩⟩

/-- C3: any text received under a non-none pending state leaves the state at
none, so a second text message is dispatched by the fallback (`NONE`) arm,
never re-treated as the earlier pending flow. -/
theorem claim_c3_state_single_use (cfg : Bool) (sh : HttpResult (List String))
    (ai : String → HttpResult String) (now uid : Nat) (raw : String)
    (st : Option String) (db : List Purchase)
    (h : st = some "waiting_shopee_term" ∨ st = some "waiting_purchase" ∨
      st = some "waiting_ai_prompt") :
    (handle_message cfg sh ai now uid raw st db).state' = none ∧
    ∀ (cfg₂ : Bool) (sh₂ : HttpResult (List String)) (ai₂ : String → HttpResult String)
      (now₂ uid₂ : Nat) (raw₂ : String) (db₂ : List Purchase),
      (handle_message cfg₂ sh₂ ai₂ now₂ uid₂ raw₂
        (handle_message cfg sh ai now uid raw st db).state' db₂).branch =
        MsgBranch.fallback := by
  have hstate : (handle_message cfg sh ai now uid raw st db).state' = none := by
    rcases h with h | h | h
    · subst h; rfl
    · subst h
      simp only [handle_message]
      rw [if_neg (by decide : ¬((some "waiting_purchase" : Option String) = some "waiting_shopee_term"))]
      rw [if_true]
      by_cases h3 : (purchase_parts (pyStrip raw)).length = 3
      · rw [if_pos h3]
        cases pythonFloat (comma_to_period ((purchase_parts (pyStrip raw)).getD 1 "")) with
        | none => rfl
        | some pf => rfl
      · rw [if_neg h3]
    · subst h; rfl
  refine ⟨hstate, ?_⟩
  intro cfg₂ sh₂ ai₂ now₂ uid₂ raw₂ db₂
  rw [hstate]
  cases cfg₂ <;> rfl

theorem claim_c3_witness :
    (handle_message true (HttpResult.ok ["/product/x"]) (fun _ => HttpResult.err) 3 9
      "mouse gamer" (some "waiting_shopee_term") []).state' = none ∧
    (handle_message true (HttpResult.ok ["/product/x"]) (fun _ => HttpResult.err) 3 9
      "segunda mensagem"
      ((handle_message true (HttpResult.ok ["/product/x"]) (fun _ => HttpResult.err) 3 9
        "mouse gamer" (some "waiting_shopee_term") []).state') []).branch =
      MsgBranch.fallback :=
  ⟨(claim_c3_state_single_use true (HttpResult.ok ["/product/x"]) (fun _ => HttpResult.err)
      3 9 "mouse gamer" (some "waiting_shopee_term") [] (Or.inl rfl)).1,
    (claim_c3_state_single_use true (HttpResult.ok ["/product/x"]) (fun _ => HttpResult.err)
      3 9 "mouse gamer" (some "waiting_shopee_term") [] (Or.inl rfl)).2
      true (HttpResult.ok ["/product/x"]) (fun _ => HttpResult.err) 3 9 "segunda mensagem" []⟩

/-- C7: with no OpenAI key configured, selecting "ask AI" from the none state
replies with the unavailability message and leaves the state at none (it never
becomes `waiting_ai_prompt`), and `analisar_com_ia` answers the unavailability
message immediately with no completion call attempted. -/
theorem claim_c7_ai_unconfigured (deals_http : HttpResult (Option (List (Option Deal))))
    (uid : Nat) (st : Option String) (db : List Purchase)
    (question : String) (completion : String → HttpResult String)
    (h : st = none) :
    handle_callback false deals_http uid "ask_ai" st db = ⟨none, db, [ai_unavailable_msg]⟩ ∧
    analisar_com_ia false uid question db completion = ⟨ai_unavailable_msg, false⟩ := by
  subst h
  exact ⟨rfl, rfl⟩

theorem claim_c7_witness :
    handle_callback false (HttpResult.ok none) 3 "ask_ai" none [] =
      ⟨none, [], [ai_unavailable_msg]⟩ ∧
    analisar_com_ia false 3 "Em que categoria eu mais gastei?" []
      (fun _ => HttpResult.ok "resposta") = ⟨ai_unavailable_msg, false⟩ :=
  claim_c7_ai_unconfigured (HttpResult.ok none) 3 none [] "Em que categoria eu mais gastei?"
    (fun _ => HttpResult.ok "resposta") rfl

/-- C4 counterexample: handling a text under the pending AI-question state
sends two outbound messages (the progress notice, then the answer), so the
claim that every handler path produces exactly one outbound message is false. -/
theorem claim_c4_counterexample :
    (handle_message true (HttpResult.ok []) (fun _ => HttpResult.ok "resposta") 0 1
      "e aí" (some "waiting_ai_prompt") []).replies.length = 2 ∧
    ¬((handle_message true (HttpResult.ok []) (fun _ => HttpResult.ok "resposta") 0 1
      "e aí" (some "waiting_ai_prompt") []).replies.length = 1) := by
  constructor
  · rfl
  · decide

/-- C4 as amended: every handler path produces at least one outbound message;
the text paths that invoke the assistant (pending AI question, or the fallback
arm when the assistant is configured) produce exactly two — the progress
notice then the answer — and every other path produces exactly one. -/
theorem claim_c4_amended_reply_counts (cfg : Bool) (sh : HttpResult (List String))
    (ai : String → HttpResult String) (now uid : Nat) (raw : String)
    (st st₂ : Option String) (db db₂ : List Purchase)
    (deals_http : HttpResult (Option (List (Option Deal)))) (uid₂ : Nat) (data : String) :
    (start st db).replies.length = 1 ∧
    (help_command st db).replies.length = 1 ∧
    (data ∈ main_menu_keys →
      (handle_callback cfg deals_http uid₂ data st₂ db₂).replies.length = 1) ∧
    ((handle_message cfg sh ai now uid raw st db).replies.length =
      if st = some "waiting_shopee_term" then 1
      else if st = some "waiting_purchase" then 1
      else if st = some "waiting_ai_prompt" then 2
      else if cfg then 2 else 1) := by
  refine ⟨rfl, rfl, ?_, ?_⟩
  · intro hmem
    have hcases : data = "deals" ∨ data = "shopee_search" ∨ data = "add_purchase" ∨
        data = "my_expenses" ∨ data = "ask_ai" ∨ data = "help" := by
      simpa [main_menu_keys] using hmem
    rcases hcases with rfl | rfl | rfl | rfl | rfl | rfl
    · rfl
    · rfl
    · rfl
    · have heq : handle_callback cfg deals_http uid₂ "my_expenses" st₂ db₂ =
          (if sort_recent_first (db₂.filter (fun p => p.user_id == uid₂)) = []
           then (⟨st₂, db₂, [no_purchases_msg]⟩ : CbResult)
           else ⟨st₂, db₂,
            [expenses_msg
              (pySum ((sort_recent_first (db₂.filter (fun p => p.user_id == uid₂))).map
                Purchase.value))
              (sort_recent_first (db₂.filter (fun p => p.user_id == uid₂))).length
              ((sort_recent_first (db₂.filter (fun p => p.user_id == uid₂))).take 5)]⟩) := rfl
      rw [heq]
      by_cases hp : sort_recent_first (db₂.filter (fun p => p.user_id == uid₂)) = []
      · rw [if_pos hp]
        rfl
      · rw [if_neg hp]
        rfl
    · cases cfg <;> rfl
    · rfl
  · by_cases h1 : st = some "waiting_shopee_term"
    · subst h1; rfl
    · by_cases h2 : st = some "waiting_purchase"
      · subst h2
        simp only [handle_message]
        rw [if_neg (by decide :
          ¬((some "waiting_purchase" : Option String) = some "waiting_shopee_term"))]
        rw [if_true]
        by_cases h3 : (purchase_parts (pyStrip raw)).length = 3
        · rw [if_pos h3]
          cases pythonFloat (comma_to_period ((purchase_parts (pyStrip raw)).getD 1 "")) with
          | none => rfl
          | some pf => rfl
        · rw [if_neg h3]
          rfl
      · by_cases h4 : st = some "waiting_ai_prompt"
        · subst h4; rfl
        · simp only [handle_message]
          rw [if_neg h1, if_neg h2, if_neg h4]
          rw [if_neg h1, if_neg h2, if_neg h4]
          cases cfg <;> rfl

theorem claim_c4_amended_witness :
    ("deals" ∈ main_menu_keys) ∧
    (handle_callback true (HttpResult.ok none) 5 "deals" none []).replies.length = 1 :=
  ⟨by decide,
    (claim_c4_amended_reply_counts true (HttpResult.ok []) (fun _ => HttpResult.err) 0 5 "oi"
      none none [] [] (HttpResult.ok none) 5 "deals").2.2.1 (by decide)⟩

/-- C5: selecting "deals" relays exactly the Deals-Client result; a transport
or HTTP failure yields the user-facing error string (the embedding is total —
nothing is raised); an empty deals list yields the distinct "no deals"
message; and a nonempty response is formatted entry-by-entry, so a response
honoring the requested `limit=5` yields at most 5 formatted entries. -/
theorem claim_c5_deals_relay (cfg : Bool) (http : HttpResult (Option (List (Option Deal))))
    (dataOpt : Option (List (Option Deal))) (uid : Nat) (st : Option String)
    (db : List Purchase) :
    handle_callback cfg http uid "deals" st db = ⟨st, db, [buscar_discount_api_real http]⟩ ∧
    buscar_discount_api_real HttpResult.err = deals_error_msg ∧
    (dataOpt.getD [] ≠ [] →
      buscar_discount_api_real (HttpResult.ok dataOpt) =
        deals_header ++ String.join ((dataOpt.getD []).map deal_entry) ∧
      ((dataOpt.getD []).length ≤ discount_request_limit →
        ((dataOpt.getD []).map deal_entry).length ≤ 5)) ∧
    (dataOpt.getD [] = [] → buscar_discount_api_real (HttpResult.ok dataOpt) = no_deals_msg) ∧
    no_deals_msg ≠ deals_error_msg := by
  refine ⟨rfl, rfl, ?_, ?_, by decide⟩
  · intro hne
    constructor
    · simp only [buscar_discount_api_real]
      rw [if_neg hne]
    · intro hlim
      rw [List.length_map]
      exact hlim
  · intro he
    simp only [buscar_discount_api_real]
    rw [if_pos he]

theorem claim_c5_witness :
    ((some [some (⟨some "Echo Dot", some "39.99", some 55, some "Amazon",
        some "https://amazon.com/echo"⟩ : Deal)] : Option (List (Option Deal))).getD [] ≠ []) ∧
    ((some [some (⟨some "Echo Dot", some "39.99", some 55, some "Amazon",
        some "https://amazon.com/echo"⟩ : Deal)] : Option (List (Option Deal))).getD
        []).length ≤ discount_request_limit ∧
    buscar_discount_api_real (HttpResult.ok (some [some (⟨some "Echo Dot", some "39.99",
        some 55, some "Amazon", some "https://amazon.com/echo"⟩ : Deal)])) =
      deals_header ++ String.join (((some [some (⟨some "Echo Dot", some "39.99", some 55,
        some "Amazon", some "https://amazon.com/echo"⟩ : Deal)] :
        Option (List (Option Deal))).getD []).map deal_entry) ∧
    (((some [some (⟨some "Echo Dot", some "39.99", some 55, some "Amazon",
        some "https://amazon.com/echo"⟩ : Deal)] : Option (List (Option Deal))).getD
        []).map deal_entry).length ≤ 5 :=
  ⟨by decide, by decide,
    ((claim_c5_deals_relay true (HttpResult.ok (some [some ⟨some "Echo Dot", some "39.99",
        some 55, some "Amazon", some "https://amazon.com/echo"⟩]))
      (some [some ⟨some "Echo Dot", some "39.99", some 55, some "Amazon",
        some "https://amazon.com/echo"⟩]) 5 none []).2.2.1 (by decide)).1,
    ((claim_c5_deals_relay true (HttpResult.ok (some [some ⟨some "Echo Dot", some "39.99",
        some 55, some "Amazon", some "https://amazon.com/echo"⟩]))
      (some [some ⟨some "Echo Dot", some "39.99", some 55, some "Amazon",
        some "https://amazon.com/echo"⟩]) 5 none []).2.2.1 (by decide)).2 (by decide)⟩

/-- C6: selecting "my expenses" with no stored purchase for the user replies
exactly the "no purchases yet" message; otherwise the reply carries the total
over the user's full (date-descending) purchase list, the full count, and the
5 most recent entries; the queried list is sorted most-recent-first and is a
permutation of all of the user's rows. -/
theorem claim_c6_my_expenses (cfg : Bool)
    (deals_http : HttpResult (Option (List (Option Deal))))
    (uid : Nat) (st : Option String) (db : List Purchase) :
    (sort_recent_first (db.filter (fun p => p.user_id == uid)) = [] →
      handle_callback cfg deals_http uid "my_expenses" st db = ⟨st, db, [no_purchases_msg]⟩) ∧
    (sort_recent_first (db.filter (fun p => p.user_id == uid)) ≠ [] →
      handle_callback cfg deals_http uid "my_expenses" st db =
        ⟨st, db,
          [expenses_msg
            (pySum ((sort_recent_first (db.filter (fun p => p.user_id == uid))).map
              Purchase.value))
            (sort_recent_first (db.filter (fun p => p.user_id == uid))).length
            ((sort_recent_first (db.filter (fun p => p.user_id == uid))).take 5)]⟩) ∧
    List.Sorted date_desc (sort_recent_first (db.filter (fun p => p.user_id == uid))) ∧
    (sort_recent_first (db.filter (fun p => p.user_id == uid))).Perm
      (db.filter (fun p => p.user_id == uid)) := by
  have heq : handle_callback cfg deals_http uid "my_expenses" st db =
      (if sort_recent_first (db.filter (fun p => p.user_id == uid)) = []
       then (⟨st, db, [no_purchases_msg]⟩ : CbResult)
       else ⟨st, db,
        [expenses_msg
          (pySum ((sort_recent_first (db.filter (fun p => p.user_id == uid))).map
            Purchase.value))
          (sort_recent_first (db.filter (fun p => p.user_id == uid))).length
          ((sort_recent_first (db.filter (fun p => p.user_id == uid))).take 5)]⟩) := rfl
  refine ⟨?_, ?_, ?_, ?_⟩
  · intro hp
    rw [heq, if_pos hp]
  · intro hp
    rw [heq, if_neg hp]
  · exact List.sorted_insertionSort date_desc _
  · exact List.perm_insertionSort date_desc _

theorem claim_c6_witness :
    (sort_recent_first (List.filter (fun p => p.user_id == 8)
      [(⟨0, 7, "café", PyFloat.num 12, "Alimentação", 1⟩ : Purchase),
       ⟨1, 7, "livro", PyFloat.num 40, "Educação", 2⟩]) = []) ∧
    handle_callback false (HttpResult.ok none) 8 "my_expenses" none
      [⟨0, 7, "café", PyFloat.num 12, "Alimentação", 1⟩,
       ⟨1, 7, "livro", PyFloat.num 40, "Educação", 2⟩] =
      ⟨none,
        [⟨0, 7, "café", PyFloat.num 12, "Alimentação", 1⟩,
         ⟨1, 7, "livro", PyFloat.num 40, "Educação", 2⟩], [no_purchases_msg]⟩ ∧
    (sort_recent_first (List.filter (fun p => p.user_id == 7)
      [(⟨0, 7, "café", PyFloat.num 12, "Alimentação", 1⟩ : Purchase),
       ⟨1, 7, "livro", PyFloat.num 40, "Educação", 2⟩]) ≠ []) ∧
    handle_callback false (HttpResult.ok none) 7 "my_expenses" none
      [⟨0, 7, "café", PyFloat.num 12, "Alimentação", 1⟩,
       ⟨1, 7, "livro", PyFloat.num 40, "Educação", 2⟩] =
      ⟨none,
        [⟨0, 7, "café", PyFloat.num 12, "Alimentação", 1⟩,
         ⟨1, 7, "livro", PyFloat.num 40, "Educação", 2⟩],
        [expenses_msg
          (pySum ((sort_recent_first (List.filter (fun p => p.user_id == 7)
            [(⟨0, 7, "café", PyFloat.num 12, "Alimentação", 1⟩ : Purchase),
             ⟨1, 7, "livro", PyFloat.num 40, "Educação", 2⟩])).map Purchase.value))
          (sort_recent_first (List.filter (fun p => p.user_id == 7)
            [(⟨0, 7, "café", PyFloat.num 12, "Alimentação", 1⟩ : Purchase),
             ⟨1, 7, "livro", PyFloat.num 40, "Educação", 2⟩])).length
          ((sort_recent_first (List.filter (fun p => p.user_id == 7)
            [(⟨0, 7, "café", PyFloat.num 12, "Alimentação", 1⟩ : Purchase),
             ⟨1, 7, "livro", PyFloat.num 40, "Educação", 2⟩])).take 5)]⟩ :=
  ⟨by decide,
    (claim_c6_my_expenses false (HttpResult.ok none) 8 none
      [⟨0, 7, "café", PyFloat.num 12, "Alimentação", 1⟩,
       ⟨1, 7, "livro", PyFloat.num 40, "Educação", 2⟩]).1 (by decide),
    by decide,
    (claim_c6_my_expenses false (HttpResult.ok none) 7 none
      [⟨0, 7, "café", PyFloat.num 12, "Alimentação", 1⟩,
       ⟨1, 7, "livro", PyFloat.num 40, "Educação", 2⟩]).2.1 (by decide)⟩

/-- C8: the Shopee search extracts at most 3 product links; when zero links
are extracted the reply is the fallback notice, which contains the constructed
search URL twice as placeholder links and differs from every genuine result
list (the two start with different characters). -/
theorem claim_c8_search_extraction (termo : String) (anchors : List String) :
    (extract_product_links anchors).length ≤ 3 ∧
    buscar_shopee_scraping termo (HttpResult.ok anchors) =
      (if extract_product_links anchors = [] then shopee_fallback_msg termo
       else shopee_success_msg termo (extract_product_links anchors)) ∧
    (∃ a b c, shopee_fallback_msg termo =
      a ++ shopee_url termo ++ b ++ shopee_url termo ++ c) ∧
    (∀ (t : String) (links : List String),
      shopee_fallback_msg termo ≠ shopee_success_msg t links) := by
  refine ⟨List.length_take_le 3 _, rfl, ?_, ?_⟩
  · refine ⟨"❌ O scraping da Shopee falhou ou não encontrou resultados para '" ++ termo ++
      "'.\n" ++ "Isso é comum, pois a Shopee usa carregamento dinâmico (JavaScript).\n\n" ++
      "**Links Simulados (para demonstrar a funcionalidade):**\n" ++
      "🔗 [Produto 1 - " ++ termo ++ "](",
      ")\n" ++ "🔗 [Produto 2 - " ++ termo ++ "](", ")\n", ?_⟩
    simp only [shopee_fallback_msg, String.append_assoc]
  · intro t links
    apply ne_of_data_head
    have hf : (shopee_fallback_msg termo).data.head? = some '❌' := rfl
    have hs : (shopee_success_msg t links).data.head? = some '🛍' := rfl
    rw [hf, hs]
    decide

theorem claim_c8_witness :
    extract_product_links [] = [] ∧
    buscar_shopee_scraping "xyz123" (HttpResult.ok []) =
      (if extract_product_links [] = [] then shopee_fallback_msg "xyz123"
       else shopee_success_msg "xyz123" (extract_product_links [])) ∧
    (∃ a b c, shopee_fallback_msg "xyz123" =
      a ++ shopee_url "xyz123" ++ b ++ shopee_url "xyz123" ++ c) :=
  ⟨by decide, (claim_c8_search_extraction "xyz123" []).2.1,
    (claim_c8_search_extraction "xyz123" []).2.2.1⟩

/-- C10: splitting on every hyphen means an entry whose product, value or
category field itself contains a hyphen (a hyphenated name, or a value with a
leading minus sign) produces more than 3 fields and is rejected with the
format-error message without persisting; consequently every purchase this flow
ever persists has a non-negative (never negative) value. -/
theorem claim_c10_hyphen_fields (cfg : Bool) (sh : HttpResult (List String))
    (ai : String → HttpResult String) (now uid : Nat) (raw : String) (db : List Purchase) :
    (∀ p v c : List Char,
      pyStripList raw.data = p ++ '-' :: (v ++ '-' :: c) →
      ('-' ∈ p ∨ '-' ∈ v ∨ '-' ∈ c) →
      handle_message cfg sh ai now uid raw (some "waiting_purchase") db =
        ⟨none, db, [format_error_msg], MsgBranch.purchaseEntry⟩) ∧
    (∀ pur : Purchase,
      pur ∈ (handle_message cfg sh ai now uid raw (some "waiting_purchase") db).db' →
      pur ∉ db → pur.value.isNeg = false) := by
  constructor
  · intro p v c hsplit hmem
    have hlen : (purchase_parts (pyStrip raw)).length ≠ 3 := by
      have hl := purchase_parts_length (pyStrip raw)
      have hdata : (pyStrip raw).data = pyStripList raw.data := rfl
      rw [hdata, hsplit] at hl
      have hc : (p ++ '-' :: (v ++ '-' :: c)).count '-' =
          p.count '-' + v.count '-' + c.count '-' + 2 := by
        simp [List.count_append, List.count_cons]
        omega
      have hpos : 0 < p.count '-' + v.count '-' + c.count '-' := by
        rcases hmem with hm | hm | hm
        · have := List.count_pos_iff.mpr hm
          omega
        · have := List.count_pos_iff.mpr hm
          omega
        · have := List.count_pos_iff.mpr hm
          omega
      omega
    simp only [handle_message]
    rw [if_neg (by decide :
      ¬((some "waiting_purchase" : Option String) = some "waiting_shopee_term"))]
    rw [if_true]
    rw [if_neg hlen]
  · intro pur hmem hnot
    by_cases h3 : (purchase_parts (pyStrip raw)).length = 3
    · cases hv : pythonFloat (comma_to_period ((purchase_parts (pyStrip raw)).getD 1 "")) with
      | none =>
        have hres : handle_message cfg sh ai now uid raw (some "waiting_purchase") db =
            ⟨none, db, [value_error_msg], MsgBranch.purchaseEntry⟩ := by
          simp only [handle_message]
          rw [if_neg (by decide :
            ¬((some "waiting_purchase" : Option String) = some "waiting_shopee_term"))]
          rw [if_true]
          rw [if_pos h3, hv]
        rw [hres] at hmem
        exact absurd hmem hnot
      | some pf =>
        have hres : handle_message cfg sh ai now uid raw (some "waiting_purchase") db =
            ⟨none,
              db ++ [⟨db.length, uid, (purchase_parts (pyStrip raw)).getD 0 "", pf,
                (purchase_parts (pyStrip raw)).getD 2 "", now⟩],
              [purchase_success_msg ((purchase_parts (pyStrip raw)).getD 0 "") pf
                ((purchase_parts (pyStrip raw)).getD 2 "")],
              MsgBranch.purchaseEntry⟩ := by
          simp only [handle_message]
          rw [if_neg (by decide :
            ¬((some "waiting_purchase" : Option String) = some "waiting_shopee_term"))]
          rw [if_true]
          rw [if_pos h3, hv]
        rw [hres] at hmem
        rcases List.mem_append.mp hmem with hm | hm
        · exact absurd hm hnot
        · have hpp := List.mem_singleton.mp hm
          have hval : pur.value = pf := by rw [hpp]
          rw [hval]
          apply pythonFloat_not_neg ?hnh hv
          case hnh =>
            intro hin
            have hbase : '-' ∈ ((purchase_parts (pyStrip raw)).getD 1 "").data := by
              rcases List.mem_map.mp hin with ⟨x, hx, hfx⟩
              by_cases hxc : x = ','
              · rw [if_pos hxc] at hfx
                exact absurd hfx (by decide)
              · rw [if_neg hxc] at hfx
                exact hfx ▸ hx
            exact purchase_parts_no_hyphen (pyStrip raw) 1 hbase
    · have hres : handle_message cfg sh ai now uid raw (some "waiting_purchase") db =
          ⟨none, db, [format_error_msg], MsgBranch.purchaseEntry⟩ := by
        simp only [handle_message]
        rw [if_neg (by decide :
          ¬((some "waiting_purchase" : Option String) = some "waiting_shopee_term"))]
        rw [if_true]
        rw [if_neg h3]
      rw [hres] at hmem
      exact absurd hmem hnot

theorem claim_c10_witness :
    (pyStripList ("Spider-Man - 50 - Games").data =
      "Spider".data ++ '-' :: ("Man ".data ++ '-' :: " 50 - Games".data)) ∧
    ('-' ∈ " 50 - Games".data) ∧
    handle_message false (HttpResult.ok []) (fun _ => HttpResult.err) 0 1
      "Spider-Man - 50 - Games" (some "waiting_purchase") [] =
      ⟨none, [], [format_error_msg], MsgBranch.purchaseEntry⟩ ∧
    (⟨0, 1, "Tênis", PyFloat.num 300, "Roupas", 9⟩ : Purchase) ∈
      (handle_message false (HttpResult.ok []) (fun _ => HttpResult.err) 9 1
        "Tênis - 300 - Roupas" (some "waiting_purchase") []).db' ∧
    (⟨0, 1, "Tênis", PyFloat.num 300, "Roupas", 9⟩ : Purchase) ∉ ([] : List Purchase) ∧
    (⟨0, 1, "Tênis", PyFloat.num 300, "Roupas", 9⟩ : Purchase).value.isNeg = false :=
  ⟨by decide, by decide,
    (claim_c10_hyphen_fields false (HttpResult.ok []) (fun _ => HttpResult.err) 0 1
      "Spider-Man - 50 - Games" []).1 "Spider".data "Man ".data " 50 - Games".data
      (by decide) (Or.inr (Or.inr (by decide))),
    by decide, by decide,
    (claim_c10_hyphen_fields false (HttpResult.ok []) (fun _ => HttpResult.err) 9 1
      "Tênis - 300 - Roupas" []).2 ⟨0, 1, "Tênis", PyFloat.num 300, "Roupas", 9⟩
      (by decide) (by decide)⟩

/-- C9: the `start` and `help` handlers return the fixed menu or guide text
and pass the pending state (and the store) through unchanged for every state
value — they neither inspect nor clear it. -/
theorem claim_c9_start_help_state_independent (st : Option String) (db : List Purchase) :
    start st db = ⟨st, db, [welcome_msg]⟩ ∧ help_command st db = ⟨st, db, [help_text]⟩ :=
  ⟨rfl, rfl⟩

end FinanceBot
